import Mathlib

/-!
Verification development for the pub/sub-triggered DAG cloud function
(`src/main.py`).  The Python source is shallowly embedded: JSON values,
the `pubsub_history` dedup store, the `make_iap_request` helper and the
`trigger_dag` coordinator become executable Lean functions; external
effects (the `LOCK TABLE ... NOWAIT` outcome, the downstream HTTP
response, the identity-token fetcher) are explicit inputs, and the
datastore/network side effects are recorded as event traces.
-/

/-- JSON values as far as the function inspects them: strings and objects
(the inbound pub/sub envelope is an object of objects with string leaves). -/
inductive Json where
  | str : String → Json
  | obj : List (String × Json) → Json

mutual

/-- Structural equality on JSON values, used to model the SQL equality
filter of `message_id_exists` (`PubSubHistory.message_id == message_id`). -/
def Json.beq : Json → Json → Bool
  | .str a, .str b => a == b
  | .obj a, .obj b => Json.beqFields a b
  | _, _ => false

/-- Field-list equality for `Json.beq`. -/
def Json.beqFields : List (String × Json) → List (String × Json) → Bool
  | [], [] => true
  | (k, v) :: as, (l, w) :: bs => k == l && Json.beq v w && Json.beqFields as bs
  | _, _ => false

end

/-- First binding of a key in an association list of JSON object fields
(Python dicts cannot hold duplicate keys, so first = only). -/
def lookupField : List (String × Json) → String → Option Json
  | [], _ => none
  | (k, v) :: rest, key => if k == key then some v else lookupField rest key

/-- Python truthiness of a JSON value: a dict is truthy iff non-empty, a
string iff non-empty (models `if request_json and ...`, main.py line 268). -/
def jsonTruthy : Json → Bool
  | .str s => !(s == "")
  | .obj fields => !fields.isEmpty

/-- Substring containment on strings, modelling the Python `in` operator
when its right operand is a string.  For a non-empty needle (the only use
here is the literal key `message`), `s.splitOn k` has more than one part
iff `k` occurs in `s`. -/
def strContains (s k : String) : Bool := (s.splitOn k).length != 1

/-- Python membership test `key in value` (main.py line 268, the test of
the message key against the parsed body): key membership for a dict,
substring test for a string. -/
def Json.hasKey : Json → String → Bool
  | .obj fields, key => (lookupField fields key).isSome
  | .str s, key => strContains s key

/-- Python exceptions the function can raise. -/
inductive PyError where
  | attributeError                -- NoneType object has no attribute, main.py line 263
  | keyError (key : String)       -- subscript of a dict lacking the key
  | typeError                     -- subscript of a string by a string key
  | operational (pgcode : String) -- re-raised OperationalError, main.py line 302
  | iapForbidden (msg : String)   -- raised by make_iap_request, main.py line 156
  | iapBadResponse (status : Nat) (headers : List (String × String)) (body : String)
                                  -- raised by make_iap_request, main.py line 159
deriving DecidableEq

/-- Python subscript `value[key]` (main.py line 269): returns the field of a
dict, raises `KeyError` when the key is absent, raises `TypeError` when the
value is a string (string indices must be integers). -/
def pyGetItem : Json → String → Except PyError Json
  | .str _, _ => .error .typeError
  | .obj fields, key =>
      match lookupField fields key with
      | some v => .ok v
      | none => .error (.keyError key)

/-- Python `value.get(key)` (the attribute reads, main.py lines 311-313):
on a dict, the lookup, with `none` for an absent key; on a string the
method does not exist and the call raises `AttributeError`. -/
def pyDictGet : Json → String → Except PyError (Option Json)
  | .obj fields, key => .ok (lookupField fields key)
  | .str _, _ => .error .attributeError

/-- Python `value.get(key, default)` (the attributes lookup with an
empty-dict default, main.py line 271): on a dict, the lookup with the
default for an absent key; on a string the call raises `AttributeError`. -/
def pyDictGetD : Json → String → Json → Except PyError Json
  | .obj fields, key, dflt => .ok ((lookupField fields key).getD dflt)
  | .str _, _, _ => .error .attributeError

/-- Embedding of `message_id_exists` (main.py lines 226-238): the dedup
store is the list of `message_id` column values of `pubsub_history`; the
query counts the rows whose `message_id` equals the argument and the
function returns whether that count is positive. -/
def message_id_exists (rows : List Json) (message_id : Json) : Bool :=
  decide (0 < rows.countP (fun r => Json.beq r message_id))

/-- An HTTP response from the downstream (IAP-protected) application. -/
structure HttpResponse where
  status : Nat
  headers : List (String × String)
  text : String
deriving DecidableEq

/-- The outbound HTTP request `make_iap_request` issues
(main.py lines 148-153): method, URL, Authorization header, timeout and
JSON body, as passed to `requests.request`. -/
structure IapRequest where
  method : String
  url : String
  authHeader : String
  timeout : Nat
  jsonBody : List (String × Json)

/-- Network-side events of one invocation, in order: the identity-token
fetch (main.py lines 140-142) and the outbound HTTP request. -/
inductive NetEvent where
  | tokenFetch (audience : String)
  | httpRequest (req : IapRequest)

/-- The exception message of the 403 branch of `make_iap_request`
(main.py lines 156-157). -/
def forbiddenMsg : String :=
  "Service account does not have permission to access the IAP-protected application."

/-- Embedding of `make_iap_request` (main.py lines 117-163).  The identity
token is fetched freshly via `fetchIdToken` scoped to `client_id`; one HTTP
request is issued carrying `Bearer` plus that token; the environment
answers with `resp`.  Status 403 raises the permission exception, any other
non-200 status raises the bad-response exception carrying status, headers
and body, and 200 returns the body.  No retry happens in any case.  The
returned list is the trace of network events, always exactly one token
fetch followed by one request. -/
def make_iap_request (url client_id method : String) (timeout : Nat)
    (jsonBody : List (String × Json)) (fetchIdToken : String → String)
    (resp : HttpResponse) : List NetEvent × Except PyError String :=
  let token := fetchIdToken client_id
  let req : IapRequest := ⟨method, url, "Bearer " ++ token, timeout, jsonBody⟩
  let events := [NetEvent.tokenFetch client_id, NetEvent.httpRequest req]
  if resp.status = 403 then
    (events, .error (.iapForbidden forbiddenMsg))
  else if resp.status ≠ 200 then
    (events, .error (.iapBadResponse resp.status resp.headers resp.text))
  else
    (events, .ok resp.text)

/-- HTTP responses `trigger_dag` can return, identified by their source
branch; the rendered body strings of main.py are fixed by the branch (and
the message id, carried here for the already-processed body). -/
inductive HttpResp where
  | disabled                     -- status 418, main.py line 264
  | malformed                    -- status 500, main.py line 274
  | alreadyProcessed (m : Json)  -- status 200, main.py lines 279 and 297-300

/-- The HTTP status of each response branch. -/
def HttpResp.status : HttpResp → Nat
  | .disabled => 418
  | .malformed => 500
  | .alreadyProcessed _ => 200

/-- What a `trigger_dag` invocation yields: a returned `Response`, the
Python `None` fall-through (there is no return statement after the insert,
main.py lines 304-330), or a raised exception. -/
inductive TriggerResult where
  | resp (r : HttpResp)
  | pyNone
  | exn (e : PyError)

/-- Whether the result is the malformed-body client-error response. -/
def TriggerResult.isClientError : TriggerResult → Bool
  | .resp .malformed => true
  | _ => false

/-- Datastore events of one invocation, in order: the existence query of
`message_id_exists` with its result, the `LOCK TABLE ... NOWAIT` attempt
with its outcome, the row insert, and the commit (which releases the lock). -/
inductive DbEvent where
  | existsCheck (m : Json) (found : Bool)
  | lockNowait (acquired : Bool)
  | insertRow (m : Json)
  | commit

/-- Outcome the database gives the `LOCK TABLE pubsub_history IN ACCESS
EXCLUSIVE MODE NOWAIT` statement (main.py line 291): success, or an
`OperationalError` carrying a Postgres error code. -/
inductive LockResult where
  | ok
  | opError (pgcode : String)

/-- The ambient inputs of one invocation: module-level configuration read
from the environment, the resolved downstream coordinates, the
identity-token fetcher, and how the external world answers the lock
statement and the downstream POST. -/
structure TriggerEnv where
  enabledVar : Option String       -- os.environ.get of ENABLED, main.py line 263
  dagName : String                 -- DAG_NAME, main.py line 40
  iapTimeout : Nat                 -- IAP_TIMEOUT, main.py line 39
  clientId : String                -- get_client_id(), main.py line 315
  webserverId : String             -- get_airflow_webserver_id(), main.py line 316
  fetchIdToken : String → String   -- id_token.fetch_id_token, main.py line 140
  lockRes : LockResult             -- outcome of the lock statement, main.py line 291
  iapResp : HttpResponse           -- downstream response to the POST

/-- The observable outcome of one `trigger_dag` invocation: its result, the
dedup store afterwards, and the datastore and network event traces. -/
structure TriggerOut where
  result : TriggerResult
  rows : List Json
  dbTrace : List DbEvent
  net : List NetEvent

/-- Python `str.lower()` on the ENABLED configuration value (main.py line
263), as character-wise lowercasing (the configuration values compared are
plain ASCII). -/
def pyLower (s : String) : String := String.mk (s.data.map Char.toLower)

/-- The attribute filter of `trigger_dag` (main.py lines 310-314) as
Python evaluates it.  All three `attributes.get` calls share the same
receiver, so either the first call already raises `AttributeError` (the
receiver is a string, not a dict — `pyDictGet` on the string) or all three
return and each result is compared with its string literal: all of
`data_type = sales_data`, `process = cleaning` and `status = completed`
must hold, a missing key or a non-string value failing the Python `==`. -/
def attrPredicateEval : Json → Except PyError Bool
  | .str _ => .error .attributeError
  | .obj fields =>
      .ok ((match lookupField fields "data_type" with
             | some (.str s) => s == "sales_data" | _ => false)
        && (match lookupField fields "process" with
             | some (.str s) => s == "cleaning" | _ => false)
        && (match lookupField fields "status" with
             | some (.str s) => s == "completed" | _ => false))

/-- The Boolean value of the attribute filter when it evaluates without
raising; `false` also covers the raising (non-dict) receiver, which never
reaches the downstream call either. -/
def attrPredicate (attributes : Json) : Bool :=
  match attrPredicateEval attributes with
  | .ok b => b
  | .error _ => false

/-- Embedding of the tail of `trigger_dag` after the claim row is committed
(main.py lines 309-330): evaluate the attribute filter — its
`AttributeError` on a non-dict attributes value propagates, after the
commit and before any network traffic; when it holds, resolve the
webserver URL and call `make_iap_request` with method POST and body
`conf = message_id`; an exception from the call propagates; either way
the function then ends, returning Python `None`. -/
def trigger_dag_after_claim (env : TriggerEnv) (message_id attributes : Json)
    (rows2 : List Json) (tr2 : List DbEvent) : TriggerOut :=
  match attrPredicateEval attributes with
  | .error e => ⟨.exn e, rows2, tr2, []⟩
  | .ok true =>
    let webserver_url :=
      "https://" ++ env.webserverId ++ ".appspot.com/api/experimental/dags/"
        ++ env.dagName ++ "/dag_runs"
    let call := make_iap_request webserver_url env.clientId "POST" env.iapTimeout
      [("conf", message_id)] env.fetchIdToken env.iapResp
    match call.2 with
    | .error e => ⟨.exn e, rows2, tr2, call.1⟩
    | .ok _ => ⟨.pyNone, rows2, tr2, call.1⟩
  | .ok false =>
    ⟨.pyNone, rows2, tr2, []⟩

/-- Embedding of `trigger_dag` (main.py lines 241-330).  Inputs: the
ambient environment, the parsed JSON body (`none` when
`request.get_json(silent=True)` yields no JSON), and the dedup store.
Steps, in source order: the ENABLED switch (`.lower()` on a missing
variable raises), body validation, extraction of `messageId` and of
`attributes` (a `.get` on a non-dict message value would raise), the
existence pre-check, the non-blocking table lock (error code 55P03 maps
to the already-processed response, any other `OperationalError`
re-raises), the insert and commit, then the filtered downstream call. -/
def trigger_dag (env : TriggerEnv) (body : Option Json) (rows : List Json) :
    TriggerOut :=
  match env.enabledVar with
  | none => ⟨.exn .attributeError, rows, [], []⟩
  | some enabled =>
    if pyLower enabled == "false" then
      ⟨.resp .disabled, rows, [], []⟩
    else
      match body with
      | none => ⟨.resp .malformed, rows, [], []⟩
      | some j =>
        if jsonTruthy j && j.hasKey "message" then
          match pyGetItem j "message" with
          | .error e => ⟨.exn e, rows, [], []⟩
          | .ok msg =>
            match pyGetItem msg "messageId" with
            | .error e => ⟨.exn e, rows, [], []⟩
            | .ok message_id =>
              match pyDictGetD msg "attributes" (.obj []) with
              | .error e => ⟨.exn e, rows, [], []⟩
              | .ok attributes =>
              let found := message_id_exists rows message_id
              let tr0 := [DbEvent.existsCheck message_id found]
              if found then
                ⟨.resp (.alreadyProcessed message_id), rows, tr0, []⟩
              else
                match env.lockRes with
                | .opError pgcode =>
                  let tr := tr0 ++ [DbEvent.lockNowait false]
                  if pgcode == "55P03" then
                    ⟨.resp (.alreadyProcessed message_id), rows, tr, []⟩
                  else
                    ⟨.exn (.operational pgcode), rows, tr, []⟩
                | .ok =>
                  let rows2 := rows ++ [message_id]
                  let tr2 := tr0 ++ [DbEvent.lockNowait true,
                    DbEvent.insertRow message_id, DbEvent.commit]
                  trigger_dag_after_claim env message_id attributes rows2 tr2
        else
          ⟨.resp .malformed, rows, [], []⟩

/-- Phase of one caller inside the dedup section of `trigger_dag`
(main.py lines 278-307): about to run the existence pre-check, about to
attempt the non-blocking lock, about to insert and commit, or finished
(`claimed = true` for the Claimed outcome, `false` for AlreadyClaimed). -/
inductive Phase where
  | preCheck
  | tryLock
  | insertCommit
  | done (claimed : Bool)
deriving DecidableEq

/-- Shared state of two concurrent invocations A and B claiming against the
same `pubsub_history` table: the rows, which caller (if any) holds the
table lock, and the phase of each caller.  The callers are named by a `Bool`
(`false` = A, `true` = B). -/
structure RaceState where
  rows : List Json
  lockHolder : Option Bool
  phaseA : Phase
  phaseB : Phase

/-- The phase of the given caller. -/
def RaceState.phaseOf (s : RaceState) (who : Bool) : Phase :=
  if who then s.phaseB else s.phaseA

/-- Replace the phase of the given caller. -/
def RaceState.setPhase (s : RaceState) (who : Bool) (p : Phase) : RaceState :=
  if who then { s with phaseB := p } else { s with phaseA := p }

/-- One atomic step of caller `who`, both callers carrying the same message
id `m`, mirroring the dedup section of `trigger_dag`: the pre-check queries
the rows in its own transaction (main.py line 278) and, per the source
comment at main.py line 276, a SELECT blocks while another transaction
holds the ACCESS EXCLUSIVE table lock — so the pre-check makes no progress
(the state is unchanged) until the lock is free; the lock attempt succeeds
only when no caller holds the lock, and a held lock makes NOWAIT fail with
55P03, which the code maps to the already-processed outcome (main.py lines
291-300); insert-plus-commit appends the row and releases the lock
(main.py lines 304-307).  A finished caller does nothing. -/
def stepCaller (m : Json) (who : Bool) (s : RaceState) : RaceState :=
  match s.phaseOf who with
  | .preCheck =>
      match s.lockHolder with
      | some _ => s
      | none =>
          if message_id_exists s.rows m then s.setPhase who (.done false)
          else s.setPhase who .tryLock
  | .tryLock =>
      match s.lockHolder with
      | none => { s.setPhase who .insertCommit with lockHolder := some who }
      | some _ => s.setPhase who (.done false)
  | .insertCommit =>
      { s.setPhase who (.done true) with rows := s.rows ++ [m], lockHolder := none }
  | .done _ => s

/-- Run a schedule (an interleaving, listing which caller moves at each
step) from a starting state. -/
def runRace (m : Json) (sched : List Bool) (s : RaceState) : RaceState :=
  sched.foldl (fun st who => stepCaller m who st) s

/-- The initial race state: a given store, lock free, both callers at the
pre-check. -/
def raceInit (rows : List Json) : RaceState := ⟨rows, none, .preCheck, .preCheck⟩

/-- How many of the two callers have observed the Claimed outcome. -/
def claimedCount (s : RaceState) : Nat :=
  (if s.phaseA = .done true then 1 else 0) + (if s.phaseB = .done true then 1 else 0)

/-- Invariant of the two-caller race on a message id `m`: the lock is held
by exactly the caller that is between lock acquisition and commit; the
number of rows for `m` equals the number of callers that observed Claimed;
and a caller that observed AlreadyClaimed did so either because a row for
`m` was visible or because the lock was held at its NOWAIT attempt (and
the lock is only ever released by the commit of an insert). -/
def RaceInv (m : Json) (s : RaceState) : Prop :=
  (s.lockHolder = some false → s.phaseA = .insertCommit)
  ∧ (s.lockHolder = some true → s.phaseB = .insertCommit)
  ∧ (s.phaseA = .insertCommit → s.lockHolder = some false)
  ∧ (s.phaseB = .insertCommit → s.lockHolder = some true)
  ∧ s.rows.countP (fun r => Json.beq r m) = claimedCount s
  ∧ (s.phaseA = .done false →
      0 < s.rows.countP (fun r => Json.beq r m) ∨ s.lockHolder ≠ none)
  ∧ (s.phaseB = .done false →
      0 < s.rows.countP (fun r => Json.beq r m) ∨ s.lockHolder ≠ none)

/-- Scan of a datastore trace tracking whether the table lock is held,
checking that every existence query happens while the lock is held. -/
def scanChecksUnderLock : Bool → List DbEvent → Bool
  | _, [] => true
  | held, .existsCheck _ _ :: rest => held && scanChecksUnderLock held rest
  | _, .lockNowait acquired :: rest => scanChecksUnderLock acquired rest
  | held, .insertRow _ :: rest => scanChecksUnderLock held rest
  | _, .commit :: rest => scanChecksUnderLock false rest

/-- Every existence query in the trace runs under the lock (the lock starts
free). -/
def checksUnderLock (tr : List DbEvent) : Bool := scanChecksUnderLock false tr

/-- Scan of a datastore trace tracking whether the table lock is held,
checking that every row insert happens while the lock is held. -/
def scanInsertsUnderLock : Bool → List DbEvent → Bool
  | _, [] => true
  | held, .insertRow _ :: rest => held && scanInsertsUnderLock held rest
  | _, .lockNowait acquired :: rest => scanInsertsUnderLock acquired rest
  | held, .existsCheck _ _ :: rest => scanInsertsUnderLock held rest
  | _, .commit :: rest => scanInsertsUnderLock false rest

/-- Every row insert in the trace runs under the lock (the lock starts
free). -/
def insertsUnderLock (tr : List DbEvent) : Bool := scanInsertsUnderLock false tr

/-- A well-formed inbound pub/sub push body carrying the given `messageId`
and `attributes` values, the shape of the scenario bodies of the spec. -/
def mkBody (m attrs : Json) : Option Json :=
  some (.obj [("message", .obj [("messageId", m), ("attributes", attrs)])])

mutual

/-- `Json.beq` is reflexive. -/
theorem Json.beq_refl : ∀ j : Json, Json.beq j j = true
  | .str s => by simp [Json.beq]
  | .obj fields => by simpa [Json.beq] using Json.beqFields_refl fields

/-- `Json.beqFields` is reflexive. -/
theorem Json.beqFields_refl : ∀ fs : List (String × Json), Json.beqFields fs fs = true
  | [] => rfl
  | (k, v) :: rest => by
      simp [Json.beqFields, Json.beq_refl v, Json.beqFields_refl rest]

end

/-- After appending a row for `m`, the existence query for `m` succeeds. -/
theorem message_id_exists_append_self (rows : List Json) (m : Json) :
    message_id_exists (rows ++ [m]) m = true := by
  simp [message_id_exists, List.countP_append, List.countP_cons, Json.beq_refl]

/-- The network-event trace of `make_iap_request` is always exactly one
token fetch followed by one HTTP request, whatever the response. -/
theorem make_iap_request_events (url cid method : String) (timeout : Nat)
    (jsonBody : List (String × Json)) (ftok : String → String) (resp : HttpResponse) :
    (make_iap_request url cid method timeout jsonBody ftok resp).1
      = [.tokenFetch cid,
         .httpRequest ⟨method, url, "Bearer " ++ ftok cid, timeout, jsonBody⟩] := by
  simp only [make_iap_request]
  split
  · rfl
  · split <;> rfl

/-- The dedup store after the post-claim tail is the store it was given. -/
theorem trigger_dag_after_claim_rows (env : TriggerEnv) (m attrs : Json)
    (rows2 : List Json) (tr2 : List DbEvent) :
    (trigger_dag_after_claim env m attrs rows2 tr2).rows = rows2 := by
  simp only [trigger_dag_after_claim]
  split
  · rfl
  · split <;> rfl
  · rfl

/-- The datastore trace after the post-claim tail is the trace it was
given. -/
theorem trigger_dag_after_claim_dbTrace (env : TriggerEnv) (m attrs : Json)
    (rows2 : List Json) (tr2 : List DbEvent) :
    (trigger_dag_after_claim env m attrs rows2 tr2).dbTrace = tr2 := by
  simp only [trigger_dag_after_claim]
  split
  · rfl
  · split <;> rfl
  · rfl

/-- When the attribute filter evaluates to false (a dict receiver not
matching the required key-value pairs), the post-claim tail makes no
network call and returns Python `None`. -/
theorem trigger_dag_after_claim_filtered (env : TriggerEnv) (m attrs : Json)
    (rows2 : List Json) (tr2 : List DbEvent)
    (hp : attrPredicateEval attrs = .ok false) :
    trigger_dag_after_claim env m attrs rows2 tr2 = ⟨.pyNone, rows2, tr2, []⟩ := by
  simp [trigger_dag_after_claim, hp]

/-- When the attribute filter evaluates to an error (a non-dict receiver),
the post-claim tail raises it with no network call, the claim row staying
committed. -/
theorem trigger_dag_after_claim_raises (env : TriggerEnv) (m attrs : Json)
    (rows2 : List Json) (tr2 : List DbEvent) (e : PyError)
    (hp : attrPredicateEval attrs = .error e) :
    trigger_dag_after_claim env m attrs rows2 tr2 = ⟨.exn e, rows2, tr2, []⟩ := by
  simp [trigger_dag_after_claim, hp]

/-- A true Boolean attribute filter means the evaluation returned ok true
(it did not raise). -/
theorem attrPredicateEval_eq_ok_true (attributes : Json)
    (hp : attrPredicate attributes = true) :
    attrPredicateEval attributes = .ok true := by
  unfold attrPredicate at hp
  cases h : attrPredicateEval attributes with
  | ok b =>
      rw [h] at hp
      simp at hp
      rw [hp]
  | error e =>
      rw [h] at hp
      simp at hp

/-- When the attribute predicate holds, the post-claim tail fetches one
token for the client id and issues exactly one POST carrying it, to the
webserver DAG-runs URL, with the message id as the `conf` body. -/
theorem trigger_dag_after_claim_net (env : TriggerEnv) (m attrs : Json)
    (rows2 : List Json) (tr2 : List DbEvent) (hp : attrPredicate attrs = true) :
    (trigger_dag_after_claim env m attrs rows2 tr2).net
      = [.tokenFetch env.clientId,
         .httpRequest ⟨"POST",
           "https://" ++ env.webserverId ++ ".appspot.com/api/experimental/dags/"
             ++ env.dagName ++ "/dag_runs",
           "Bearer " ++ env.fetchIdToken env.clientId, env.iapTimeout,
           [("conf", m)]⟩] := by
  simp only [trigger_dag_after_claim, attrPredicateEval_eq_ok_true attrs hp]
  split <;> simp [make_iap_request_events]

/-- C10: when the ENABLED environment variable is unset, `os.environ.get`
yields `None` and `.lower()` raises at the very first step, before the
body is parsed and before any datastore or network access. -/
theorem c10_enabled_unset_raises (dag : String) (timeout : Nat) (cid wid : String)
    (ftok : String → String) (lockRes : LockResult) (iapResp : HttpResponse)
    (body : Option Json) (rows : List Json) :
    trigger_dag ⟨none, dag, timeout, cid, wid, ftok, lockRes, iapResp⟩ body rows
      = ⟨.exn .attributeError, rows, [], []⟩ := rfl

/-- C9: at a first-delivery request that is well-formed and enabled (here
with non-matching attributes), `trigger_dag` commits the claim row but
then falls off the end of the function, returning Python `None` instead of
a 200 response; the 200 status is produced only on the already-processed
paths.  The source comment at main.py line 282 (return 200 if a new lock
was introduced) states the intended 200 for this path. -/
theorem c9_first_processing_returns_no_response :
    (trigger_dag ⟨some "true", "dag_x", 90, "cid", "wid", fun _ => "tok", .ok,
        ⟨200, [], "ok"⟩⟩ (mkBody (.str "abc123") (.obj [])) []).result
      = .pyNone
  ∧ (trigger_dag ⟨some "true", "dag_x", 90, "cid", "wid", fun _ => "tok", .ok,
        ⟨200, [], "ok"⟩⟩ (mkBody (.str "abc123") (.obj [])) []).rows
      = [.str "abc123"] := ⟨rfl, rfl⟩

/-- C5: `make_iap_request` returns the response body exactly when the
status is 200; status 403 raises the permission (`Forbidden`) exception;
any other non-200 status raises the bad-response exception carrying the
status code, headers and body; and in every case exactly one HTTP request
is issued (no retry). -/
theorem c5_iap_classification (url cid method : String) (timeout : Nat)
    (jsonBody : List (String × Json)) (ftok : String → String)
    (resp : HttpResponse) :
    (resp.status = 200 →
      (make_iap_request url cid method timeout jsonBody ftok resp).2 = .ok resp.text)
  ∧ (resp.status = 403 →
      (make_iap_request url cid method timeout jsonBody ftok resp).2
        = .error (.iapForbidden forbiddenMsg))
  ∧ (resp.status ≠ 200 → resp.status ≠ 403 →
      (make_iap_request url cid method timeout jsonBody ftok resp).2
        = .error (.iapBadResponse resp.status resp.headers resp.text))
  ∧ (∀ b, (make_iap_request url cid method timeout jsonBody ftok resp).2 = .ok b →
      resp.status = 200 ∧ b = resp.text)
  ∧ (make_iap_request url cid method timeout jsonBody ftok resp).1.countP
      (fun e => match e with | .httpRequest _ => true | _ => false) = 1 := by
  refine ⟨?_, ?_, ?_, ?_, ?_⟩
  · intro h
    simp [make_iap_request, h]
  · intro h
    simp [make_iap_request, h]
  · intro h1 h2
    simp [make_iap_request, h1, h2]
  · intro b hb
    by_cases h4 : resp.status = 403
    · simp [make_iap_request, h4] at hb
    · by_cases h2 : resp.status = 200
      · simp [make_iap_request, h4, h2] at hb
        exact ⟨h2, hb.symm⟩
      · simp [make_iap_request, h4, h2] at hb
  · rw [make_iap_request_events]
    rfl

/-- Witness for C5: the classification at a 200, a 403 and a 500 response. -/
theorem c5_iap_classification_witness :
    (make_iap_request "u" "c" "POST" 90 [] (fun _ => "t") ⟨200, [], "body"⟩).2
      = .ok "body"
  ∧ (make_iap_request "u" "c" "POST" 90 [] (fun _ => "t") ⟨403, [], "no"⟩).2
      = .error (.iapForbidden forbiddenMsg)
  ∧ (make_iap_request "u" "c" "POST" 90 [] (fun _ => "t") ⟨500, [], "x"⟩).2
      = .error (.iapBadResponse 500 [] "x") :=
  ⟨(c5_iap_classification "u" "c" "POST" 90 [] (fun _ => "t") ⟨200, [], "body"⟩).1 rfl,
   (c5_iap_classification "u" "c" "POST" 90 [] (fun _ => "t") ⟨403, [], "no"⟩).2.1 rfl,
   (c5_iap_classification "u" "c" "POST" 90 [] (fun _ => "t") ⟨500, [], "x"⟩).2.2.1
     (by decide) (by decide)⟩

/-- C4: during the claim, an `OperationalError` from the lock statement
with Postgres code 55P03 (lock not available) makes `trigger_dag` return
the already-processed 200 response at once, with no row inserted; an
`OperationalError` with any other code re-raises instead of being mapped
to a dedup result. -/
theorem c4_lock_failure (e dag : String) (timeout : Nat) (cid wid : String)
    (ftok : String → String) (iapResp : HttpResponse) (pgcode : String)
    (m attrs : Json) (rows : List Json)
    (hef : (pyLower e == "false") = false)
    (hnew : message_id_exists rows m = false) :
    (pgcode = "55P03" →
      trigger_dag ⟨some e, dag, timeout, cid, wid, ftok, .opError pgcode, iapResp⟩
          (mkBody m attrs) rows
        = ⟨.resp (.alreadyProcessed m), rows,
           [.existsCheck m false, .lockNowait false], []⟩)
  ∧ (pgcode ≠ "55P03" →
      trigger_dag ⟨some e, dag, timeout, cid, wid, ftok, .opError pgcode, iapResp⟩
          (mkBody m attrs) rows
        = ⟨.exn (.operational pgcode), rows,
           [.existsCheck m false, .lockNowait false], []⟩) := by
  constructor <;> intro h <;>
    simp [trigger_dag, mkBody, jsonTruthy, Json.hasKey, lookupField, pyGetItem,
      pyDictGetD, hef, hnew, h]

/-- Witness for C4: a fresh message against an empty store, once with the
lock-not-available code and once with a query-canceled code. -/
theorem c4_lock_failure_witness :
    trigger_dag ⟨some "true", "dag_x", 90, "cid", "wid", fun _ => "tok",
        .opError "55P03", ⟨200, [], "ok"⟩⟩ (mkBody (.str "m1") (.obj [])) []
      = ⟨.resp (.alreadyProcessed (.str "m1")), [],
         [.existsCheck (.str "m1") false, .lockNowait false], []⟩
  ∧ trigger_dag ⟨some "true", "dag_x", 90, "cid", "wid", fun _ => "tok",
        .opError "57014", ⟨200, [], "ok"⟩⟩ (mkBody (.str "m1") (.obj [])) []
      = ⟨.exn (.operational "57014"), [],
         [.existsCheck (.str "m1") false, .lockNowait false], []⟩ :=
  ⟨(c4_lock_failure "true" "dag_x" 90 "cid" "wid" (fun _ => "tok") ⟨200, [], "ok"⟩
      "55P03" (.str "m1") (.obj []) [] rfl rfl).1 rfl,
   (c4_lock_failure "true" "dag_x" 90 "cid" "wid" (fun _ => "tok") ⟨200, [], "ok"⟩
      "57014" (.str "m1") (.obj []) [] rfl rfl).2 (by decide)⟩

/-- C1: for a message id `m` not yet in the store, a first invocation
claims it (commits its `pubsub_history` row, making `message_id_exists`
flip from false to true), and every later sequential invocation carrying
`m` — against any store in which `m` exists — returns the
already-processed 200 response, inserts no further row, and makes no
downstream call. -/
theorem c1_sequential_claim_then_already (e1 e2 dag1 dag2 : String)
    (t1 t2 : Nat) (cid1 wid1 cid2 wid2 : String) (ftok1 ftok2 : String → String)
    (resp1 resp2 : HttpResponse) (lock2 : LockResult)
    (m attrs attrs2 : Json) (rows : List Json)
    (h1f : (pyLower e1 == "false") = false)
    (h2f : (pyLower e2 == "false") = false)
    (hnew : message_id_exists rows m = false) :
    (trigger_dag ⟨some e1, dag1, t1, cid1, wid1, ftok1, .ok, resp1⟩
        (mkBody m attrs) rows).rows = rows ++ [m]
  ∧ message_id_exists (rows ++ [m]) m = true
  ∧ (∀ rows2, message_id_exists rows2 m = true →
      trigger_dag ⟨some e2, dag2, t2, cid2, wid2, ftok2, lock2, resp2⟩
          (mkBody m attrs2) rows2
        = ⟨.resp (.alreadyProcessed m), rows2, [.existsCheck m true], []⟩) := by
  refine ⟨?_, message_id_exists_append_self rows m, ?_⟩
  · simp [trigger_dag, mkBody, jsonTruthy, Json.hasKey, lookupField, pyGetItem,
      pyDictGetD, h1f, hnew, trigger_dag_after_claim_rows]
  · intro rows2 hex
    simp [trigger_dag, mkBody, jsonTruthy, Json.hasKey, lookupField, pyGetItem,
      pyDictGetD, h2f, hex]

/-- Witness for C1: message id m1 against an empty store, then redelivered
against the store holding its row. -/
theorem c1_sequential_claim_then_already_witness :
    (trigger_dag ⟨some "true", "d", 90, "c", "w", fun _ => "t", .ok, ⟨200, [], "ok"⟩⟩
        (mkBody (.str "m1") (.obj [])) []).rows = [.str "m1"]
  ∧ trigger_dag ⟨some "true", "d", 90, "c", "w", fun _ => "t", .ok, ⟨200, [], "ok"⟩⟩
        (mkBody (.str "m1") (.obj [])) [.str "m1"]
      = ⟨.resp (.alreadyProcessed (.str "m1")), [.str "m1"],
         [.existsCheck (.str "m1") true], []⟩ := by
  have h := c1_sequential_claim_then_already "true" "true" "d" "d" 90 90 "c" "w"
    "c" "w" (fun _ => "t") (fun _ => "t") ⟨200, [], "ok"⟩ ⟨200, [], "ok"⟩ .ok
    (.str "m1") (.obj []) (.obj []) [] rfl rfl rfl
  exact ⟨h.1, h.2.2 [.str "m1"] rfl⟩

/-- Counterexample to C6: the inbound body carrying a `message` object
that lacks the `messageId` field does not get a client-error response —
the messageId subscript on that object raises `KeyError` instead (no
datastore write happens either way). -/
theorem c6_counterexample :
    (trigger_dag ⟨some "true", "dag_x", 90, "cid", "wid", fun _ => "tok", .ok,
        ⟨200, [], "ok"⟩⟩ (some (.obj [("message", .obj [])])) []).result
      = .exn (.keyError "messageId")
  ∧ ((trigger_dag ⟨some "true", "dag_x", 90, "cid", "wid", fun _ => "tok", .ok,
        ⟨200, [], "ok"⟩⟩ (some (.obj [("message", .obj [])])) []).result).isClientError
      = false
  ∧ (trigger_dag ⟨some "true", "dag_x", 90, "cid", "wid", fun _ => "tok", .ok,
        ⟨200, [], "ok"⟩⟩ (some (.obj [("message", .obj [])])) []).rows = []
  ∧ (trigger_dag ⟨some "true", "dag_x", 90, "cid", "wid", fun _ => "tok", .ok,
        ⟨200, [], "ok"⟩⟩ (some (.obj [("message", .obj [])])) []).dbTrace = [] :=
  ⟨rfl, rfl, rfl, rfl⟩

/-- C6 amended: a payload that is no JSON, falsy JSON, or lacks the
`message` key is rejected with the 500 client-error response and no
datastore access; a payload whose `message` object is present but lacks
`messageId` instead raises `KeyError` — still with no datastore access. -/
theorem c6_amended_malformed_rejection (e dag : String) (timeout : Nat)
    (cid wid : String) (ftok : String → String) (lockRes : LockResult)
    (iapResp : HttpResponse) (rows : List Json)
    (hef : (pyLower e == "false") = false) :
    (∀ body : Option Json,
      (match body with
        | none => true
        | some j => !(jsonTruthy j && j.hasKey "message")) = true →
      trigger_dag ⟨some e, dag, timeout, cid, wid, ftok, lockRes, iapResp⟩ body rows
        = ⟨.resp .malformed, rows, [], []⟩)
  ∧ (∀ msgFields, lookupField msgFields "messageId" = none →
      trigger_dag ⟨some e, dag, timeout, cid, wid, ftok, lockRes, iapResp⟩
          (some (.obj [("message", .obj msgFields)])) rows
        = ⟨.exn (.keyError "messageId"), rows, [], []⟩) := by
  constructor
  · intro body hb
    match body with
    | none => simp [trigger_dag, hef]
    | some j =>
      simp only [Bool.not_eq_true'] at hb
      simp [trigger_dag, hef, hb]
  · intro msgFields hmf
    simp [trigger_dag, hef, jsonTruthy, Json.hasKey, lookupField, pyGetItem, hmf]

/-- Witness for C6 amended: the empty-object body is rejected with 500 and
the body whose message object is empty raises `KeyError`. -/
theorem c6_amended_malformed_rejection_witness :
    trigger_dag ⟨some "true", "dag_x", 90, "cid", "wid", fun _ => "tok", .ok,
        ⟨200, [], "ok"⟩⟩ (some (.obj [])) []
      = ⟨.resp .malformed, [], [], []⟩
  ∧ trigger_dag ⟨some "true", "dag_x", 90, "cid", "wid", fun _ => "tok", .ok,
        ⟨200, [], "ok"⟩⟩ (some (.obj [("message", .obj [])])) []
      = ⟨.exn (.keyError "messageId"), [], [], []⟩ := by
  have h := c6_amended_malformed_rejection "true" "dag_x" 90 "cid" "wid"
    (fun _ => "tok") .ok ⟨200, [], "ok"⟩ [] rfl
  exact ⟨h.1 (some (.obj [])) rfl, h.2 [] rfl⟩

/-- Counterexample to C7: when the attributes value of a newly-claimed
message is a JSON string (which satisfies not-all-matching), the
invocation does not complete — the attribute read raises `AttributeError`
(main.py line 311) — although the claim row is already committed and no
downstream call is made. -/
theorem c7_counterexample :
    trigger_dag ⟨some "true", "dag_x", 90, "cid", "wid", fun _ => "tok", .ok,
        ⟨200, [], "ok"⟩⟩ (mkBody (.str "m1") (.str "x")) []
      = ⟨.exn .attributeError, [.str "m1"],
         [.existsCheck (.str "m1") false, .lockNowait true,
          .insertRow (.str "m1"), .commit], []⟩ := rfl

/-- C7 amended: a newly-claimed message whose attributes form a JSON
object not satisfying the predicate completes without any downstream call
(Python `None`, claim row committed); when the attributes value is a JSON
string instead, the attribute read raises `AttributeError` after the claim
row is committed, still with no downstream call; in both cases any later
delivery of the same message id — whatever its attributes — is treated as
already processed. -/
theorem c7_amended_filtered_still_claims (e1 e2 dag1 dag2 : String)
    (t1 t2 : Nat) (cid1 wid1 cid2 wid2 : String) (ftok1 ftok2 : String → String)
    (resp1 resp2 : HttpResponse) (lock2 : LockResult)
    (m attrs attrs2 : Json) (rows : List Json)
    (h1f : (pyLower e1 == "false") = false)
    (h2f : (pyLower e2 == "false") = false)
    (hnew : message_id_exists rows m = false) :
    (attrPredicateEval attrs = .ok false →
      trigger_dag ⟨some e1, dag1, t1, cid1, wid1, ftok1, .ok, resp1⟩
          (mkBody m attrs) rows
        = ⟨.pyNone, rows ++ [m],
           [.existsCheck m false, .lockNowait true, .insertRow m, .commit], []⟩)
  ∧ (∀ a : String, attrs = .str a →
      trigger_dag ⟨some e1, dag1, t1, cid1, wid1, ftok1, .ok, resp1⟩
          (mkBody m attrs) rows
        = ⟨.exn .attributeError, rows ++ [m],
           [.existsCheck m false, .lockNowait true, .insertRow m, .commit], []⟩)
  ∧ (∀ rows2, message_id_exists rows2 m = true →
      trigger_dag ⟨some e2, dag2, t2, cid2, wid2, ftok2, lock2, resp2⟩
          (mkBody m attrs2) rows2
        = ⟨.resp (.alreadyProcessed m), rows2, [.existsCheck m true], []⟩) := by
  refine ⟨?_, ?_, ?_⟩
  · intro hpred
    simp [trigger_dag, mkBody, jsonTruthy, Json.hasKey, lookupField, pyGetItem,
      pyDictGetD, h1f, hnew, trigger_dag_after_claim, hpred]
  · intro a ha
    subst ha
    simp [trigger_dag, mkBody, jsonTruthy, Json.hasKey, lookupField, pyGetItem,
      pyDictGetD, h1f, hnew, trigger_dag_after_claim, attrPredicateEval]
  · intro rows2 hex
    simp [trigger_dag, mkBody, jsonTruthy, Json.hasKey, lookupField, pyGetItem,
      pyDictGetD, h2f, hex]

/-- Witness for C7 amended: object attributes failing the predicate on a
fresh id, string attributes on another fresh id, then a redelivery with
matching attributes against the enlarged store. -/
theorem c7_amended_filtered_still_claims_witness :
    trigger_dag ⟨some "true", "d", 90, "c", "w", fun _ => "t", .ok, ⟨200, [], "ok"⟩⟩
        (mkBody (.str "m1") (.obj [("data_type", .str "other")])) []
      = ⟨.pyNone, [.str "m1"],
         [.existsCheck (.str "m1") false, .lockNowait true,
          .insertRow (.str "m1"), .commit], []⟩
  ∧ trigger_dag ⟨some "true", "d", 90, "c", "w", fun _ => "t", .ok, ⟨200, [], "ok"⟩⟩
        (mkBody (.str "m2") (.str "x")) []
      = ⟨.exn .attributeError, [.str "m2"],
         [.existsCheck (.str "m2") false, .lockNowait true,
          .insertRow (.str "m2"), .commit], []⟩
  ∧ trigger_dag ⟨some "true", "d", 90, "c", "w", fun _ => "t", .ok, ⟨200, [], "ok"⟩⟩
        (mkBody (.str "m1") (.obj [("data_type", .str "sales_data"),
          ("process", .str "cleaning"), ("status", .str "completed")])) [.str "m1"]
      = ⟨.resp (.alreadyProcessed (.str "m1")), [.str "m1"],
         [.existsCheck (.str "m1") true], []⟩ := by
  have h := c7_amended_filtered_still_claims "true" "true" "d" "d" 90 90 "c" "w"
    "c" "w" (fun _ => "t") (fun _ => "t") ⟨200, [], "ok"⟩ ⟨200, [], "ok"⟩ .ok
    (.str "m1") (.obj [("data_type", .str "other")])
    (.obj [("data_type", .str "sales_data"), ("process", .str "cleaning"),
      ("status", .str "completed")]) [] rfl rfl rfl
  have h2 := c7_amended_filtered_still_claims "true" "true" "d" "d" 90 90 "c" "w"
    "c" "w" (fun _ => "t") (fun _ => "t") ⟨200, [], "ok"⟩ ⟨200, [], "ok"⟩ .ok
    (.str "m2") (.str "x") (.obj []) [] rfl rfl rfl
  exact ⟨h.1 rfl, h2.2.1 "x" rfl, h.2.2 [.str "m1"] rfl⟩

/-- C8: a newly-claimed message whose attributes satisfy the predicate
makes exactly one downstream call: a POST to
`https://<webserver_id>.appspot.com/api/experimental/dags/<DAG_NAME>/dag_runs`
with JSON body `conf = message_id` and an Authorization header carrying
`Bearer` plus the identity token fetched during this invocation for the
client id. -/
theorem c8_triggered_post (e dag : String) (timeout : Nat) (cid wid : String)
    (ftok : String → String) (iapResp : HttpResponse) (m attrs : Json)
    (rows : List Json)
    (hef : (pyLower e == "false") = false)
    (hnew : message_id_exists rows m = false)
    (hpred : attrPredicate attrs = true) :
    (trigger_dag ⟨some e, dag, timeout, cid, wid, ftok, .ok, iapResp⟩
        (mkBody m attrs) rows).net
      = [.tokenFetch cid,
         .httpRequest ⟨"POST",
           "https://" ++ wid ++ ".appspot.com/api/experimental/dags/"
             ++ dag ++ "/dag_runs",
           "Bearer " ++ ftok cid, timeout, [("conf", m)]⟩] := by
  have hnet := trigger_dag_after_claim_net
    ⟨some e, dag, timeout, cid, wid, ftok, .ok, iapResp⟩ m attrs
    (rows ++ [m])
    [.existsCheck m false, .lockNowait true, .insertRow m, .commit] hpred
  simp [trigger_dag, mkBody, jsonTruthy, Json.hasKey, lookupField, pyGetItem,
    pyDictGetD, hef, hnew]
  simpa using hnet

/-- Witness for C8: the spec scenario, message id abc123 with matching
attributes against an empty store. -/
theorem c8_triggered_post_witness :
    (trigger_dag ⟨some "true", "dag_x", 90, "cid", "wid", fun _ => "tok", .ok,
        ⟨200, [], "ok"⟩⟩
        (mkBody (.str "abc123") (.obj [("data_type", .str "sales_data"),
          ("process", .str "cleaning"), ("status", .str "completed")])) []).net
      = [.tokenFetch "cid",
         .httpRequest ⟨"POST",
           "https://" ++ "wid" ++ ".appspot.com/api/experimental/dags/"
             ++ "dag_x" ++ "/dag_runs",
           "Bearer " ++ "tok", 90, [("conf", .str "abc123")]⟩] :=
  c8_triggered_post "true" "dag_x" 90 "cid" "wid" (fun _ => "tok")
    ⟨200, [], "ok"⟩ (.str "abc123")
    (.obj [("data_type", .str "sales_data"), ("process", .str "cleaning"),
      ("status", .str "completed")]) [] rfl rfl rfl

/-- Counterexample to C2: the interleaving in which both callers run their
existence pre-check before the first insert, and the second caller
attempts the lock only after the first has committed (thereby releasing
the table lock), ends with BOTH callers observing Claimed and TWO rows for
the same message id — the pre-check happens outside the lock and is not
repeated under it. -/
theorem c2_counterexample :
    runRace (.str "m1") [false, true, false, false, true, true] (raceInit [])
      = ⟨[.str "m1", .str "m1"], none, .done true, .done true⟩
  ∧ (runRace (.str "m1") [false, true, false, false, true, true]
      (raceInit [])).rows.countP (fun r => Json.beq r (.str "m1")) = 2 :=
  ⟨rfl, rfl⟩

/-- A false existence query means no row for the message id is counted. -/
theorem countP_eq_zero_of_no_row (rows : List Json) (m : Json)
    (h : message_id_exists rows m = false) :
    rows.countP (fun r => Json.beq r m) = 0 := by
  have := of_decide_eq_false h
  omega

/-- A true existence query means at least one row for the message id. -/
theorem countP_pos_of_row (rows : List Json) (m : Json)
    (h : message_id_exists rows m = true) :
    0 < rows.countP (fun r => Json.beq r m) :=
  of_decide_eq_true h

/-- The race invariant holds initially when no row for the message id
exists yet. -/
theorem raceInv_init (m : Json) (rows : List Json)
    (hnew : message_id_exists rows m = false) : RaceInv m (raceInit rows) := by
  unfold RaceInv raceInit claimedCount
  simp [countP_eq_zero_of_no_row rows m hnew]

/-- Every step of either caller preserves the race invariant. -/
theorem raceInv_step (m : Json) (w : Bool) (s : RaceState) (h : RaceInv m s) :
    RaceInv m (stepCaller m w s) := by
  rcases s with ⟨rows, lk, pA, pB⟩
  obtain ⟨hA, hB, hA2, hB2, hcnt, hdA, hdB⟩ := h
  have hrefl : Json.beq m m = true := Json.beq_refl m
  cases w
  case false =>
    cases pA with
    | preCheck =>
      cases lk with
      | some v => exact ⟨hA, hB, hA2, hB2, hcnt, hdA, hdB⟩
      | none =>
        by_cases hex : message_id_exists rows m = true
        · have hstep : stepCaller m false ⟨rows, none, .preCheck, pB⟩
              = ⟨rows, none, .done false, pB⟩ := by
            simp [stepCaller, RaceState.phaseOf, RaceState.setPhase, hex]
          rw [hstep]
          refine ⟨by simp, by simp, by simp, ?_, ?_, ?_, ?_⟩
          · intro hb
            simpa using hB2 hb
          · simpa [claimedCount] using hcnt
          · intro _
            exact Or.inl (countP_pos_of_row rows m hex)
          · intro hb
            rcases hdB hb with hc | hn
            · exact Or.inl hc
            · exact absurd rfl hn
        · have hex2 : message_id_exists rows m = false := by
            simpa using hex
          have hstep : stepCaller m false ⟨rows, none, .preCheck, pB⟩
              = ⟨rows, none, .tryLock, pB⟩ := by
            simp [stepCaller, RaceState.phaseOf, RaceState.setPhase, hex2]
          rw [hstep]
          refine ⟨by simp, by simp, by simp, ?_, ?_, by simp, ?_⟩
          · intro hb
            simpa using hB2 hb
          · simpa [claimedCount] using hcnt
          · intro hb
            rcases hdB hb with hc | hn
            · exact Or.inl hc
            · exact absurd rfl hn
    | tryLock =>
      cases lk with
      | none =>
        have hstep : stepCaller m false ⟨rows, none, .tryLock, pB⟩
            = ⟨rows, some false, .insertCommit, pB⟩ := by
          simp [stepCaller, RaceState.phaseOf, RaceState.setPhase]
        rw [hstep]
        refine ⟨fun _ => rfl, by simp, fun _ => rfl, ?_, ?_, by simp, ?_⟩
        · intro hb
          simpa using hB2 hb
        · simpa [claimedCount] using hcnt
        · intro _
          exact Or.inr (by simp)
      | some v =>
        cases v with
        | false => exact absurd (hA rfl) (by simp)
        | true =>
          have hstep : stepCaller m false ⟨rows, some true, .tryLock, pB⟩
              = ⟨rows, some true, .done false, pB⟩ := by
            simp [stepCaller, RaceState.phaseOf, RaceState.setPhase]
          rw [hstep]
          refine ⟨by simp, fun _ => hB rfl, by simp, fun hb => hB2 hb, ?_, ?_, ?_⟩
          · simpa [claimedCount] using hcnt
          · intro _
            exact Or.inr (by simp)
          · intro _
            exact Or.inr (by simp)
    | insertCommit =>
      have hlk : lk = some false := hA2 rfl
      subst hlk
      have hstep : stepCaller m false ⟨rows, some false, .insertCommit, pB⟩
          = ⟨rows ++ [m], none, .done true, pB⟩ := by
        simp [stepCaller, RaceState.phaseOf, RaceState.setPhase]
      rw [hstep]
      have hcount : (rows ++ [m]).countP (fun r => Json.beq r m)
          = rows.countP (fun r => Json.beq r m) + 1 := by
        simp [List.countP_append, List.countP_cons, hrefl]
      refine ⟨by simp, by simp, by simp, ?_, ?_, by simp, ?_⟩
      · intro hb
        simpa using hB2 hb
      · rw [hcount]
        simp only [claimedCount] at hcnt ⊢
        simp at hcnt ⊢
        omega
      · intro _
        exact Or.inl (by rw [hcount]; omega)
    | done cA => exact ⟨hA, hB, hA2, hB2, hcnt, hdA, hdB⟩
  case true =>
    cases pB with
    | preCheck =>
      cases lk with
      | some v => exact ⟨hA, hB, hA2, hB2, hcnt, hdA, hdB⟩
      | none =>
        by_cases hex : message_id_exists rows m = true
        · have hstep : stepCaller m true ⟨rows, none, pA, .preCheck⟩
              = ⟨rows, none, pA, .done false⟩ := by
            simp [stepCaller, RaceState.phaseOf, RaceState.setPhase, hex]
          rw [hstep]
          refine ⟨?_, by simp, ?_, by simp, ?_, ?_, ?_⟩
          · intro hb
            simpa using hA hb
          · intro hb
            simpa using hA2 hb
          · simpa [claimedCount] using hcnt
          · intro hb
            rcases hdA hb with hc | hn
            · exact Or.inl hc
            · exact absurd rfl hn
          · intro _
            exact Or.inl (countP_pos_of_row rows m hex)
        · have hex2 : message_id_exists rows m = false := by
            simpa using hex
          have hstep : stepCaller m true ⟨rows, none, pA, .preCheck⟩
              = ⟨rows, none, pA, .tryLock⟩ := by
            simp [stepCaller, RaceState.phaseOf, RaceState.setPhase, hex2]
          rw [hstep]
          refine ⟨?_, by simp, ?_, by simp, ?_, ?_, by simp⟩
          · intro hb
            simpa using hA hb
          · intro hb
            simpa using hA2 hb
          · simpa [claimedCount] using hcnt
          · intro hb
            rcases hdA hb with hc | hn
            · exact Or.inl hc
            · exact absurd rfl hn
    | tryLock =>
      cases lk with
      | none =>
        have hstep : stepCaller m true ⟨rows, none, pA, .tryLock⟩
            = ⟨rows, some true, pA, .insertCommit⟩ := by
          simp [stepCaller, RaceState.phaseOf, RaceState.setPhase]
        rw [hstep]
        refine ⟨by simp, fun _ => rfl, ?_, fun _ => rfl, ?_, ?_, by simp⟩
        · intro hb
          simpa using hA2 hb
        · simpa [claimedCount] using hcnt
        · intro hb
          rcases hdA hb with hc | hn
          · exact Or.inl hc
          · exact absurd rfl hn
      | some v =>
        cases v with
        | true => exact absurd (hB rfl) (by simp)
        | false =>
          have hstep : stepCaller m true ⟨rows, some false, pA, .tryLock⟩
              = ⟨rows, some false, pA, .done false⟩ := by
            simp [stepCaller, RaceState.phaseOf, RaceState.setPhase]
          rw [hstep]
          refine ⟨fun _ => hA rfl, by simp, fun hb => hA2 hb, by simp, ?_, ?_, ?_⟩
          · simpa [claimedCount] using hcnt
          · intro _
            exact Or.inr (by simp)
          · intro _
            exact Or.inr (by simp)
    | insertCommit =>
      have hlk : lk = some true := hB2 rfl
      subst hlk
      have hstep : stepCaller m true ⟨rows, some true, pA, .insertCommit⟩
          = ⟨rows ++ [m], none, pA, .done true⟩ := by
        simp [stepCaller, RaceState.phaseOf, RaceState.setPhase]
      rw [hstep]
      have hcount : (rows ++ [m]).countP (fun r => Json.beq r m)
          = rows.countP (fun r => Json.beq r m) + 1 := by
        simp [List.countP_append, List.countP_cons, hrefl]
      refine ⟨by simp, by simp, ?_, by simp, ?_, ?_, by simp⟩
      · intro hb
        simpa using hA2 hb
      · rw [hcount]
        simp only [claimedCount] at hcnt ⊢
        simp at hcnt ⊢
        omega
      · intro _
        exact Or.inl (by rw [hcount]; omega)
    | done cB => exact ⟨hA, hB, hA2, hB2, hcnt, hdA, hdB⟩

/-- The race invariant holds after running any schedule from an invariant
state. -/
theorem raceInv_run (m : Json) (sched : List Bool) (s : RaceState)
    (h : RaceInv m s) : RaceInv m (runRace m sched s) := by
  induction sched generalizing s with
  | nil => exact h
  | cons w rest ih => exact ih (stepCaller m w s) (raceInv_step m w s h)

/-- C2 amended: for two concurrent callers claiming the same fresh message
id, in EVERY interleaving the number of rows for that id equals the number
of callers that observed Claimed, and whenever both callers have completed
at least one of them observed Claimed; moreover a lock attempt made while
the other caller holds the table lock always yields AlreadyClaimed (the
NOWAIT failure), as does a pre-check made once the row is committed and
the lock free — so exactly one caller observes Claimed, with exactly one
row, whenever the loser observes the winner at either point; the guarantee
fails only in the interleaving of the counterexample, where both
pre-checks precede the first insert and the second lock attempt follows
the first commit, and there both callers observe Claimed with two rows. -/
theorem c2_amended_race_accounting (m : Json) (rows : List Json)
    (sched : List Bool) (hnew : message_id_exists rows m = false) :
    ((runRace m sched (raceInit rows)).rows.countP (fun r => Json.beq r m)
       = claimedCount (runRace m sched (raceInit rows)))
  ∧ (∀ ca cb : Bool, (runRace m sched (raceInit rows)).phaseA = .done ca →
      (runRace m sched (raceInit rows)).phaseB = .done cb →
      ca = true ∨ cb = true)
  ∧ (∀ s : RaceState, ∀ w : Bool, s.phaseOf w = .tryLock →
      (∃ v, s.lockHolder = some v) →
      stepCaller m w s = s.setPhase w (.done false))
  ∧ (∀ s : RaceState, ∀ w : Bool, s.phaseOf w = .preCheck →
      s.lockHolder = none → message_id_exists s.rows m = true →
      stepCaller m w s = s.setPhase w (.done false)) := by
  obtain ⟨hA, hB, hA2, hB2, hcnt, hdA, hdB⟩ :=
    raceInv_run m sched (raceInit rows) (raceInv_init m rows hnew)
  refine ⟨hcnt, ?_, ?_, ?_⟩
  · intro ca cb hca hcb
    have hlk : (runRace m sched (raceInit rows)).lockHolder = none := by
      cases hl : (runRace m sched (raceInit rows)).lockHolder with
      | none => rfl
      | some v =>
        cases v with
        | false =>
          have h1 := hA hl
          rw [hca] at h1
          exact absurd h1 (by simp)
        | true =>
          have h1 := hB hl
          rw [hcb] at h1
          exact absurd h1 (by simp)
    cases ca with
    | true => exact Or.inl rfl
    | false =>
      cases cb with
      | true => exact Or.inr rfl
      | false =>
        exfalso
        rcases hdA hca with hpos | hlkne
        · rw [hcnt] at hpos
          simp [claimedCount, hca, hcb] at hpos
        · exact hlkne hlk
  · intro s w hw hv
    obtain ⟨v, hv⟩ := hv
    simp [stepCaller, hw, hv]
  · intro s w hw hl hex
    simp [stepCaller, hw, hl, hex]

/-- Witness for C2 amended: the row-count accounting on the contended
interleaving (message id m1, empty store), and the NOWAIT outcome of a
lock attempt made while the other caller holds the lock. -/
theorem c2_amended_race_accounting_witness :
    (runRace (.str "m1") [false, true, false, true, false]
        (raceInit [])).rows.countP (fun r => Json.beq r (.str "m1"))
      = claimedCount (runRace (.str "m1") [false, true, false, true, false]
          (raceInit []))
  ∧ stepCaller (.str "m1") true ⟨[], some false, .preCheck, .tryLock⟩
      = ⟨[], some false, .preCheck, .done false⟩ := by
  have h := c2_amended_race_accounting (.str "m1") []
    [false, true, false, true, false] rfl
  exact ⟨h.1, h.2.2.1 ⟨[], some false, .preCheck, .tryLock⟩ true rfl ⟨false, rfl⟩⟩

/-- Counterexample to C3: on a first delivery the datastore trace of
`trigger_dag` starts with the existence check and only then attempts the
lock, so the check does NOT run under the serialization lock. -/
theorem c3_counterexample :
    (trigger_dag ⟨some "true", "dag_x", 90, "cid", "wid", fun _ => "tok", .ok,
        ⟨200, [], "ok"⟩⟩ (mkBody (.str "m1") (.obj [])) []).dbTrace
      = [.existsCheck (.str "m1") false, .lockNowait true,
         .insertRow (.str "m1"), .commit]
  ∧ checksUnderLock
      ((trigger_dag ⟨some "true", "dag_x", 90, "cid", "wid", fun _ => "tok", .ok,
        ⟨200, [], "ok"⟩⟩ (mkBody (.str "m1") (.obj [])) []).dbTrace) = false :=
  ⟨rfl, rfl⟩

/-- C3 amended: on a first delivery the existence check runs before —
outside — the lock; the lock is then acquired before the insert, the
insert and commit run under it, and no further existence check happens
after the lock is taken. -/
theorem c3_amended_check_before_lock (e dag : String) (timeout : Nat)
    (cid wid : String) (ftok : String → String) (iapResp : HttpResponse)
    (m attrs : Json) (rows : List Json)
    (hef : (pyLower e == "false") = false)
    (hnew : message_id_exists rows m = false) :
    (trigger_dag ⟨some e, dag, timeout, cid, wid, ftok, .ok, iapResp⟩
        (mkBody m attrs) rows).dbTrace
      = [.existsCheck m false, .lockNowait true, .insertRow m, .commit]
  ∧ insertsUnderLock
      [.existsCheck m false, .lockNowait true, .insertRow m, .commit] = true
  ∧ checksUnderLock
      [.existsCheck m false, .lockNowait true, .insertRow m, .commit] = false := by
  refine ⟨?_, rfl, rfl⟩
  simp [trigger_dag, mkBody, jsonTruthy, Json.hasKey, lookupField, pyGetItem,
    pyDictGetD, hef, hnew, trigger_dag_after_claim_dbTrace]

/-- Witness for C3 amended: a fresh message id m1 against an empty store. -/
theorem c3_amended_check_before_lock_witness :
    (trigger_dag ⟨some "true", "dag_x", 90, "cid", "wid", fun _ => "tok", .ok,
        ⟨200, [], "ok"⟩⟩ (mkBody (.str "m1") (.obj [])) []).dbTrace
      = [.existsCheck (.str "m1") false, .lockNowait true,
         .insertRow (.str "m1"), .commit] :=
  (c3_amended_check_before_lock "true" "dag_x" 90 "cid" "wid" (fun _ => "tok")
    ⟨200, [], "ok"⟩ (.str "m1") (.obj []) [] rfl rfl).1
